import Mathlib

/-!
Shallow embedding of the FairFix client-side quote/schedule retrieval state
machine (src/unnamed/part_000, the React `App` component) and proofs about it.

JavaScript numbers are modelled as rationals (ℚ); absent or null JSON values
as `Option`; a thrown JavaScript value as a `Thrown` record carrying whether
it is an `instanceof Error` and its message; the outcome of one
fetch-then-parse sequence as `FetchOutcome`.  State-setting functions become
pure functions on an `AppState` record, returning also the list of HTTP
requests they issue.
-/

namespace FairFix

/-- Shop category of a quote: the source `type` field, "Dealer" or "Indy". -/
inductive ShopType where
  | dealer
  | indy
deriving DecidableEq, Repr

/-- Quote record returned by the /quotes endpoint (source `Quote`). -/
structure Quote where
  name : String
  price : ℚ
  type : ShopType
  distance : ℚ
  lat : ℚ
  lng : ℚ
deriving DecidableEq, Repr

/-- A quote decorated with the synthetic ordinal identifier (source `QuoteWithId`). -/
structure QuoteWithId extends Quote where
  id : String
deriving DecidableEq, Repr

/-- Item of the maintenance schedule (source `ScheduleItem`). -/
structure ScheduleItem where
  service_task : String
  interval_miles : ℚ
  description : String
  severity : String
deriving DecidableEq, Repr

/-- Map center coordinates (source `MapCenter`). -/
structure MapCenter where
  lat : ℚ
  lng : ℚ
deriving DecidableEq, Repr

/-- The two active modes; the source `Mode` type is this or `null`,
modelled as `Option Mode`. -/
inductive Mode where
  | quote
  | schedule
deriving DecidableEq, Repr

/-- The vehicle form fields (source `vehicle` state object). -/
structure Vehicle where
  year : String
  make : String
  model : String
  mileage : String
  zip_code : String
deriving DecidableEq, Repr

/-- One of the five vehicle form fields, for `updateVehicle`. -/
inductive VehicleField where
  | year
  | make
  | model
  | mileage
  | zip_code
deriving DecidableEq, Repr

/-- A thrown JavaScript value: whether it is an `instanceof Error`,
and the message the catch clause would read off it. -/
structure Thrown where
  isError : Bool
  message : String
deriving DecidableEq, Repr

/-- Outcome of one `fetch` + `response.json()` sequence: the fetch itself may
reject (network failure), or a response arrives with an `ok` flag and — read
only when `ok` — a body whose parsing may itself throw. -/
inductive FetchOutcome (β : Type) where
  | netThrow (t : Thrown)
  | resp (ok : Bool) (parse : Except Thrown β)

/-- The optional `center` object of a /quotes response body; each coordinate
may itself be absent, null, or a number. -/
structure JsonCenter where
  lat : Option ℚ
  lng : Option ℚ
deriving DecidableEq, Repr

/-- Parsed /quotes response body: `{ quotes?: Quote[], center?: {lat, lng} }`. -/
structure QuotesBody where
  quotes : Option (List Quote)
  center : Option JsonCenter
deriving DecidableEq

/-- The environment a submit runs against: what each endpoint would return.
Only the endpoint matching the current mode is consulted. -/
structure Env where
  quotesResult : FetchOutcome QuotesBody
  scheduleResult : FetchOutcome (Option (List ScheduleItem))

/-- An outbound HTTP request: endpoint path and query parameters. -/
structure Request where
  endpoint : String
  params : List (String × String)
deriving DecidableEq, Repr

/-- The component state: every `useState` hook of `App`. -/
structure AppState where
  mode : Option Mode
  vehicle : Vehicle
  serviceName : String
  loading : Bool
  error : Option String
  quotes : Option (List Quote)
  schedule : Option (List ScheduleItem)
  mapCenter : Option MapCenter
  activeQuoteId : Option String
deriving DecidableEq

/-- Initial state of the component: all hooks at their `useState` initial
values; `serviceName` starts as SERVICE_OPTIONS[0]. -/
def initialState : AppState :=
  { mode := none
    vehicle := { year := "", make := "", model := "", mileage := "", zip_code := "" }
    serviceName := "Brake Pad Replacement"
    loading := false
    error := none
    quotes := none
    schedule := none
    mapCenter := none
    activeQuoteId := none }

/-- Source `quotesWithId`: `quotes?.map((quote, index) => ({...quote, id:
quote-index})) ?? []` — decorate each quote with its ordinal identifier,
or the empty list when `quotes` is null. -/
def quotesWithId (quotes : Option (List Quote)) : List QuoteWithId :=
  match quotes with
  | none => []
  | some qs => qs.enum.map fun p => { p.2 with id := "quote-" ++ toString p.1 }

/-- Source `dealers`: the Dealer subset of `quotesWithId`, order preserved. -/
def dealers (quotes : Option (List Quote)) : List QuoteWithId :=
  (quotesWithId quotes).filter fun q => q.type == ShopType.dealer

/-- Source `indys`: the Indy subset of `quotesWithId`, order preserved. -/
def indys (quotes : Option (List Quote)) : List QuoteWithId :=
  (quotesWithId quotes).filter fun q => q.type == ShopType.indy

/-- JavaScript `Math.round`: round half toward positive infinity. -/
def mathRound (q : ℚ) : ℤ := ⌊q + 1/2⌋

/-- Source `dealerAverage`: 0 when there are no dealers, otherwise
`Math.round(total / dealers.length)` where `total` is the `reduce` sum of
dealer prices. -/
def dealerAverage (quotes : Option (List Quote)) : ℤ :=
  let ds := dealers quotes
  if ds.length = 0 then 0
  else
    let total := ds.foldl (fun sum q => sum + q.price) 0
    mathRound (total / (ds.length : ℚ))

/-- Per-independent-shop savings: `Math.max(0, dealerAverage - quote.price)`. -/
def savings (avg : ℤ) (price : ℚ) : ℚ := max 0 ((avg : ℚ) - price)

/-- The savings badge render guard in the independent-shop card:
`savings > 0 && ...`. -/
def showsSavingsBadge (avg : ℤ) (price : ℚ) : Bool :=
  decide (0 < savings avg price)

/-- Source `handleModeChange`: set the mode and clear error, quotes,
schedule, map center and active selection.  The second component is the
list of HTTP requests issued: none. -/
def handleModeChange (s : AppState) (nextMode : Option Mode) :
    AppState × List Request :=
  ({ s with
      mode := nextMode
      error := none
      quotes := none
      schedule := none
      mapCenter := none
      activeQuoteId := none }, [])

/-- Source `updateVehicle`: assign one field of the vehicle object. -/
def updateVehicle (s : AppState) (field : VehicleField) (value : String) :
    AppState :=
  { s with vehicle :=
      match field with
      | .year => { s.vehicle with year := value }
      | .make => { s.vehicle with make := value }
      | .model => { s.vehicle with model := value }
      | .mileage => { s.vehicle with mileage := value }
      | .zip_code => { s.vehicle with zip_code := value } }

/-- The /quotes request built by `handleSubmit` in quote mode. -/
def quoteRequest (s : AppState) : Request :=
  { endpoint := "/quotes"
    params :=
      [("service_name", s.serviceName),
       ("make", s.vehicle.make.trim),
       ("model", s.vehicle.model.trim),
       ("year", s.vehicle.year.trim),
       ("zip_code", s.vehicle.zip_code.trim)] }

/-- The /schedule request built by `handleSubmit` in schedule mode. -/
def scheduleRequest (s : AppState) : Request :=
  { endpoint := "/schedule"
    params :=
      [("make", s.vehicle.make.trim),
       ("model", s.vehicle.model.trim),
       ("year", s.vehicle.year.trim),
       ("mileage", s.vehicle.mileage.trim)] }

/-- The map center read off a response body when the truthiness guard has
passed: `{lat: data.center.lat, lng: data.center.lng}`.  The `getD 0` never
fires under the guard, which guarantees both coordinates present. -/
def readCenter (center : Option JsonCenter) : MapCenter :=
  { lat := (center.bind fun c => c.lat).getD 0,
    lng := (center.bind fun c => c.lng).getD 0 }

/-- The message stored by the catch clause:
`err instanceof Error ? err.message : "Something went wrong."`. -/
def caughtMessage (t : Thrown) : String :=
  if t.isError then t.message else "Something went wrong."

/-- JavaScript truthiness of the optionally-chained number
`data.center?.lat`: false when the chain is undefined or the number is 0. -/
def truthy (v : Option ℚ) : Bool :=
  match v with
  | none => false
  | some q => decide (q ≠ 0)

/-- Source `handleSubmit`: no-op when mode is null; otherwise set loading,
clear the error, perform the fetch/parse sequence of the active mode inside
a try/catch, and clear loading in the finally clause.  Returns the new state
and the list of HTTP requests issued. -/
def handleSubmit (s : AppState) (env : Env) : AppState × List Request :=
  match s.mode with
  | none => (s, [])
  | some m =>
    let s0 := { s with loading := true, error := none }
    let s1 :=
      match m with
      | Mode.quote =>
        match env.quotesResult with
        | .netThrow t => { s0 with error := some (caughtMessage t) }
        | .resp ok parse =>
          if ok then
            match parse with
            | .error t => { s0 with error := some (caughtMessage t) }
            | .ok data =>
              let s2 := { s0 with quotes := some (data.quotes.getD []) }
              let s3 :=
                if truthy (data.center.bind fun c => c.lat)
                    && truthy (data.center.bind fun c => c.lng) then
                  { s2 with mapCenter := some (readCenter data.center) }
                else s2
              { s3 with schedule := none }
          else { s0 with error := some "Unable to fetch quotes. Try again." }
      | Mode.schedule =>
        match env.scheduleResult with
        | .netThrow t => { s0 with error := some (caughtMessage t) }
        | .resp ok parse =>
          if ok then
            match parse with
            | .error t => { s0 with error := some (caughtMessage t) }
            | .ok data =>
              { s0 with schedule := some (data.getD []), quotes := none }
          else { s0 with error := some "Unable to load schedule. Try again." }
    ({ s1 with loading := false },
     [match m with
      | Mode.quote => quoteRequest s
      | Mode.schedule => scheduleRequest s])

/-- Render guard of the quote-comparison section (source line 449):
`mode === "quote" && quotes && mapCenter`. -/
def showsQuoteComparison (s : AppState) : Bool :=
  (s.mode == some Mode.quote) && s.quotes.isSome && s.mapCenter.isSome

/-- Render guard of the error paragraph (source line 405): `error && ...`;
a stored empty string would be falsy. -/
def showsError (s : AppState) : Bool :=
  match s.error with
  | none => false
  | some msg => msg != ""

/-- Render guard of the schedule section (source line 409):
`mode === "schedule" && schedule`. -/
def showsScheduleSection (s : AppState) : Bool :=
  (s.mode == some Mode.schedule) && s.schedule.isSome

/-- The empty-state message inside the schedule section is shown when the
schedule list has length 0 (source line 418). -/
def showsScheduleEmptyMessage (s : AppState) : Bool :=
  showsScheduleSection s && (s.schedule.getD []).length == 0

/-- The service dropdown handler: `setServiceName(event.target.value)`. -/
def setServiceName (s : AppState) (v : String) : AppState :=
  { s with serviceName := v }

/-- The hover and pin-click handlers: `setActiveQuoteId(id)` or
`setActiveQuoteId(null)`. -/
def setActiveQuote (s : AppState) (id : Option String) : AppState :=
  { s with activeQuoteId := id }

/-- One UI event step: a mode click, a field edit, a service selection,
a submit against some environment, or a hover/pin-click selection change. -/
inductive Step : AppState → AppState → Prop where
  | modeChange (s : AppState) (m : Option Mode) :
      Step s (handleModeChange s m).1
  | fieldEdit (s : AppState) (f : VehicleField) (v : String) :
      Step s (updateVehicle s f v)
  | serviceChange (s : AppState) (v : String) :
      Step s (setServiceName s v)
  | submit (s : AppState) (env : Env) :
      Step s (handleSubmit s env).1
  | activeQuote (s : AppState) (id : Option String) :
      Step s (setActiveQuote s id)

/-- States reachable from the initial state by UI event steps. -/
inductive Reachable : AppState → Prop where
  | init : Reachable initialState
  | step {s t : AppState} : Reachable s → Step s t → Reachable t

/-- A concrete dealer quote for examples. -/
def dealerQuote (nm : String) (p : ℚ) : Quote :=
  { name := nm, price := p, type := ShopType.dealer, distance := 0, lat := 0, lng := 0 }

/-- A concrete independent-shop quote for examples. -/
def indyQuote (nm : String) (p : ℚ) : Quote :=
  { name := nm, price := p, type := ShopType.indy, distance := 0, lat := 0, lng := 0 }

/-- A fetch/parse sequence threw the value `t`: either the fetch itself
rejected, or the response was ok and reading its body threw. -/
def thrownOutcome {β : Type} (o : FetchOutcome β) (t : Thrown) : Prop :=
  o = .netThrow t ∨ o = .resp true (.error t)

/-- The fetch/parse sequence of the endpoint selected by the current mode
threw the value `t`.  (When mode is null no sequence runs at all.) -/
def activeFetchThrew (s : AppState) (env : Env) (t : Thrown) : Prop :=
  match s.mode with
  | some Mode.quote => thrownOutcome env.quotesResult t
  | some Mode.schedule => thrownOutcome env.scheduleResult t
  | none => False

/-- The initial state after clicking the quote mode button. -/
def quoteModeState : AppState := { initialState with mode := some Mode.quote }

/-- The initial state after clicking the schedule mode button. -/
def scheduleModeState : AppState := { initialState with mode := some Mode.schedule }

/-- Environment in which the /quotes fetch rejects with a browser network
TypeError, which is an `instanceof Error` with its own message. -/
def networkFailureEnv : Env :=
  { quotesResult := .netThrow { isError := true, message := "Failed to fetch" },
    scheduleResult := .resp true (.ok none) }

/-- Environment in which the /quotes fetch rejects with a thrown value that
is not an `instanceof Error`. -/
def nonErrorThrowEnv : Env :=
  { quotesResult := .netThrow { isError := false, message := "boom" },
    scheduleResult := .resp true (.ok none) }

/-- Environment in which /quotes answers with a non-2xx status. -/
def non2xxQuotesEnv : Env :=
  { quotesResult := .resp false (.ok { quotes := none, center := none }),
    scheduleResult := .resp true (.ok none) }

/-- Environment in which /quotes succeeds with two quotes and a truthy
center. -/
def successQuotesEnv : Env :=
  { quotesResult := .resp true (.ok
      { quotes := some [dealerQuote "A" 1000, indyQuote "J" 900],
        center := some { lat := some 37, lng := some (-122) } }),
    scheduleResult := .resp true (.ok none) }

/-- Environment in which /quotes succeeds but the response carries no
center object. -/
def centerlessQuotesEnv : Env :=
  { quotesResult := .resp true (.ok { quotes := some [dealerQuote "A" 1000], center := none }),
    scheduleResult := .resp true (.ok none) }

/-- Environment in which /schedule succeeds with a JSON body of null. -/
def nullScheduleEnv : Env :=
  { quotesResult := .resp true (.ok { quotes := none, center := none }),
    scheduleResult := .resp true (.ok none) }

/-- Claim C1, counterexample: a network failure during a quote submit throws
a TypeError, an `instanceof Error`; the catch clause stores that message
("Failed to fetch"), not the generic "Something went wrong.", refuting the
claim that every non-RequestError failure yields the generic message. -/
theorem network_error_keeps_thrown_message :
    (handleSubmit quoteModeState networkFailureEnv).1.error = some "Failed to fetch" ∧
    (handleSubmit quoteModeState networkFailureEnv).1.error ≠ some "Something went wrong." := by
  constructor
  · rfl
  · decide

/-- Claim C1, amended: for every failure thrown during the submit
fetch/parse sequence, the stored error is the thrown value message when the
value is an `instanceof Error` (as network TypeErrors, parse SyntaxErrors
and the deliberate RequestError all are), and the generic
"Something went wrong." exactly when a non-Error value was thrown. -/
theorem submit_thrown_error_message (s : AppState) (env : Env) (t : Thrown)
    (ht : activeFetchThrew s env t) :
    (handleSubmit s env).1.error =
      some (if t.isError then t.message else "Something went wrong.") := by
  unfold activeFetchThrew at ht
  cases hm : s.mode with
  | none => rw [hm] at ht; exact absurd ht (by simp)
  | some m =>
    rw [hm] at ht
    cases m with
    | quote =>
      rcases ht with h | h <;> simp [handleSubmit, hm, h, caughtMessage]
    | schedule =>
      rcases ht with h | h <;> simp [handleSubmit, hm, h, caughtMessage]

/-- Witness for C1 amended: a thrown non-Error value in quote mode stores
the generic message. -/
theorem submit_thrown_error_message_witness :
    (handleSubmit quoteModeState nonErrorThrowEnv).1.error = some "Something went wrong." :=
  submit_thrown_error_message quoteModeState nonErrorThrowEnv ⟨false, "boom"⟩ (Or.inl rfl)

/-- Claim C2: a non-2xx /quotes response in quote mode stores exactly
"Unable to fetch quotes. Try again.", parses nothing into state (quotes,
schedule and map center are all untouched), and in particular leaves quotes
null when it was null before the submit. -/
theorem quotes_non2xx_error (s : AppState) (env : Env) (p : Except Thrown QuotesBody)
    (hm : s.mode = some Mode.quote)
    (hr : env.quotesResult = .resp false p) :
    (handleSubmit s env).1.error = some "Unable to fetch quotes. Try again." ∧
    (handleSubmit s env).1.quotes = s.quotes ∧
    (handleSubmit s env).1.schedule = s.schedule ∧
    (handleSubmit s env).1.mapCenter = s.mapCenter ∧
    (s.quotes = none → (handleSubmit s env).1.quotes = none) := by
  simp [handleSubmit, hm, hr]

/-- Witness for C2 at a concrete non-2xx environment. -/
theorem quotes_non2xx_error_witness :
    (handleSubmit quoteModeState non2xxQuotesEnv).1.error =
        some "Unable to fetch quotes. Try again." ∧
    (handleSubmit quoteModeState non2xxQuotesEnv).1.quotes = quoteModeState.quotes ∧
    (handleSubmit quoteModeState non2xxQuotesEnv).1.schedule = quoteModeState.schedule ∧
    (handleSubmit quoteModeState non2xxQuotesEnv).1.mapCenter = quoteModeState.mapCenter ∧
    (quoteModeState.quotes = none →
      (handleSubmit quoteModeState non2xxQuotesEnv).1.quotes = none) :=
  quotes_non2xx_error quoteModeState non2xxQuotesEnv
    (.ok { quotes := none, center := none }) rfl rfl

/-- Helper: one submit, against any environment, preserves the mutual
exclusion of quotes and schedule. -/
theorem handleSubmit_preserves_mutex (s : AppState) (env : Env)
    (h : s.quotes = none ∨ s.schedule = none) :
    (handleSubmit s env).1.quotes = none ∨ (handleSubmit s env).1.schedule = none := by
  cases hm : s.mode with
  | none => simpa [handleSubmit, hm] using h
  | some m =>
    cases m with
    | quote =>
      cases hq : env.quotesResult with
      | netThrow t => simpa [handleSubmit, hm, hq] using h
      | resp ok p =>
        cases ok with
        | false => simpa [handleSubmit, hm, hq] using h
        | true =>
          cases p with
          | error t => simpa [handleSubmit, hm, hq] using h
          | ok data => simp [handleSubmit, hm, hq]
    | schedule =>
      cases hq : env.scheduleResult with
      | netThrow t => simpa [handleSubmit, hm, hq] using h
      | resp ok p =>
        cases ok with
        | false => simpa [handleSubmit, hm, hq] using h
        | true =>
          cases p with
          | error t => simpa [handleSubmit, hm, hq] using h
          | ok data => simp [handleSubmit, hm, hq]

/-- Claim C3: in every reachable state quotes and schedule are mutually
exclusive — at most one of the two is non-null; every UI step (mode change,
field edit, service selection, submit against any environment, selection
change) preserves this. -/
theorem quotes_schedule_mutually_exclusive (s : AppState) (h : Reachable s) :
    s.quotes = none ∨ s.schedule = none := by
  induction h with
  | init => left; rfl
  | step hr hs ih =>
    cases hs with
    | modeChange m => simp [handleModeChange]
    | fieldEdit f v => simpa [updateVehicle] using ih
    | serviceChange v => simpa [setServiceName] using ih
    | submit env => exact handleSubmit_preserves_mutex _ env ih
    | activeQuote id => simpa [setActiveQuote] using ih

/-- Witness for C3 at the state reached by selecting quote mode and then
submitting against a successful /quotes environment. -/
theorem quotes_schedule_mutually_exclusive_witness :
    (handleSubmit (handleModeChange initialState (some Mode.quote)).1 successQuotesEnv).1.quotes
        = none ∨
    (handleSubmit (handleModeChange initialState (some Mode.quote)).1 successQuotesEnv).1.schedule
        = none :=
  quotes_schedule_mutually_exclusive _
    (Reachable.step
      (Reachable.step Reachable.init (Step.modeChange initialState (some Mode.quote)))
      (Step.submit (handleModeChange initialState (some Mode.quote)).1 successQuotesEnv))

/-- Claim C4: on a 2xx /quotes response, the map center is set from the
response center exactly when both coordinates are present and truthy
(nonzero); a center whose lat or lng is 0, null or absent leaves mapCenter
unchanged, as does an absent center. -/
theorem quotes_success_sets_mapCenter (s : AppState) (env : Env) (data : QuotesBody)
    (hm : s.mode = some Mode.quote)
    (hr : env.quotesResult = .resp true (.ok data)) :
    (handleSubmit s env).1.mapCenter =
      match data.center with
      | some c =>
        match c.lat, c.lng with
        | some la, some ln =>
          if la ≠ 0 ∧ ln ≠ 0 then some { lat := la, lng := ln } else s.mapCenter
        | some _, none => s.mapCenter
        | none, _ => s.mapCenter
      | none => s.mapCenter := by
  rcases data with ⟨qs, center⟩
  cases center with
  | none => simp [handleSubmit, hm, hr, truthy]
  | some c =>
    rcases c with ⟨la, ln⟩
    cases la with
    | none => simp [handleSubmit, hm, hr, truthy]
    | some a =>
      cases ln with
      | none => simp [handleSubmit, hm, hr, truthy]
      | some b =>
        by_cases ha : a = 0
        · simp [handleSubmit, hm, hr, truthy, ha]
        · by_cases hb : b = 0
          · simp [handleSubmit, hm, hr, truthy, ha, hb]
          · simp [handleSubmit, hm, hr, truthy, ha, hb, readCenter]

/-- Witness for C4 at a response whose center is (37, -122). -/
theorem quotes_success_sets_mapCenter_witness :
    (handleSubmit quoteModeState successQuotesEnv).1.mapCenter =
      (if (37 : ℚ) ≠ 0 ∧ (-122 : ℚ) ≠ 0
       then some { lat := 37, lng := -122 }
       else quoteModeState.mapCenter) :=
  quotes_success_sets_mapCenter quoteModeState successQuotesEnv
    { quotes := some [dealerQuote "A" 1000, indyQuote "J" 900],
      center := some { lat := some 37, lng := some (-122) } } rfl rfl

/-- Claim C5: the quote-comparison view renders exactly when mode is quote,
quotes is non-null and mapCenter is non-null; hence a successful /quotes
fetch without a truthy center, starting with no center set, stores the
quotes but renders neither the results view nor any error message. -/
theorem quote_view_requires_center (s : AppState) (env : Env) (data : QuotesBody)
    (hm : s.mode = some Mode.quote)
    (hc : s.mapCenter = none)
    (hr : env.quotesResult = .resp true (.ok data))
    (hlat : truthy (data.center.bind fun c => c.lat) = false ∨
            truthy (data.center.bind fun c => c.lng) = false) :
    (∀ u : AppState, showsQuoteComparison u = true ↔
        (u.mode = some Mode.quote ∧ u.quotes ≠ none ∧ u.mapCenter ≠ none)) ∧
    showsQuoteComparison (handleSubmit s env).1 = false ∧
    (handleSubmit s env).1.quotes = some (data.quotes.getD []) ∧
    (handleSubmit s env).1.error = none ∧
    showsError (handleSubmit s env).1 = false := by
  have hgate : ∀ u : AppState, showsQuoteComparison u = true ↔
      (u.mode = some Mode.quote ∧ u.quotes ≠ none ∧ u.mapCenter ≠ none) := by
    intro u
    simp [showsQuoteComparison, Option.isSome_iff_ne_none, and_assoc]
  have hfalse : (truthy (data.center.bind fun c => c.lat)
      && truthy (data.center.bind fun c => c.lng)) = false := by
    rcases hlat with h | h <;> simp [h]
  refine ⟨hgate, ?_, ?_, ?_, ?_⟩
  · simp [handleSubmit, hm, hr, hfalse, showsQuoteComparison, hc]
  · simp [handleSubmit, hm, hr, hfalse]
  · simp [handleSubmit, hm, hr, hfalse]
  · simp [handleSubmit, hm, hr, hfalse, showsError]

/-- Witness for C5 at a successful centerless /quotes response. -/
theorem quote_view_requires_center_witness :
    (∀ u : AppState, showsQuoteComparison u = true ↔
        (u.mode = some Mode.quote ∧ u.quotes ≠ none ∧ u.mapCenter ≠ none)) ∧
    showsQuoteComparison (handleSubmit quoteModeState centerlessQuotesEnv).1 = false ∧
    (handleSubmit quoteModeState centerlessQuotesEnv).1.quotes = some [dealerQuote "A" 1000] ∧
    (handleSubmit quoteModeState centerlessQuotesEnv).1.error = none ∧
    showsError (handleSubmit quoteModeState centerlessQuotesEnv).1 = false :=
  quote_view_requires_center quoteModeState centerlessQuotesEnv
    { quotes := some [dealerQuote "A" 1000], center := none } rfl rfl rfl (Or.inl rfl)

/-- Claim C6: selecting a mode sets the mode, clears error, quotes,
schedule, mapCenter and activeQuoteId to null, leaves the vehicle input
unchanged, and issues no network request. -/
theorem modeChange_clears_results (s : AppState) (m : Option Mode) :
    (handleModeChange s m).1.mode = m ∧
    (handleModeChange s m).1.error = none ∧
    (handleModeChange s m).1.quotes = none ∧
    (handleModeChange s m).1.schedule = none ∧
    (handleModeChange s m).1.mapCenter = none ∧
    (handleModeChange s m).1.activeQuoteId = none ∧
    (handleModeChange s m).1.vehicle = s.vehicle ∧
    (handleModeChange s m).2 = [] := by
  simp [handleModeChange]

/-- Claim C7: dealerAverage is 0 when there are no dealer quotes, and
otherwise the dealer price mean rounded to the nearest integer (halves
up, as JavaScript Math.round does); dealers priced 1000 and 1200 average
to 1100. -/
theorem dealerAverage_is_rounded_mean (quotes : Option (List Quote)) :
    dealerAverage quotes =
      (if dealers quotes = [] then 0
       else round ((((dealers quotes).map fun q => q.price).sum) / ((dealers quotes).length : ℚ))) ∧
    dealerAverage (some [dealerQuote "A" 1000, dealerQuote "B" 1200]) = 1100 := by
  constructor
  · unfold dealerAverage
    by_cases h : dealers quotes = []
    · simp [h]
    · have hfold : ∀ (l : List QuoteWithId) (a : ℚ),
          l.foldl (fun sum q => sum + q.price) a = a + (l.map fun q => q.price).sum := by
        intro l
        induction l with
        | nil => simp
        | cons x xs ih => intro a; simp [ih, add_assoc]
      have hlen : (dealers quotes).length ≠ 0 := by simpa using h
      simp only [hlen, if_neg h, mathRound, round_eq]
      rw [hfold]
      simp
  · show dealerAverage (some [dealerQuote "A" 1000, dealerQuote "B" 1200]) = 1100
    have h1 : dealers (some [dealerQuote "A" 1000, dealerQuote "B" 1200]) =
        [{ dealerQuote "A" 1000 with id := "quote-0" },
         { dealerQuote "B" 1200 with id := "quote-1" }] := by
      simp [dealers, quotesWithId, List.enum, List.enumFrom, dealerQuote]
      exact ⟨rfl, rfl⟩
    rw [dealerAverage, h1]
    norm_num [mathRound, dealerQuote]

/-- Claim C8: per-independent-shop savings equal max(0, dealerAverage -
price), are never negative, and the savings badge renders exactly when the
savings are strictly positive; price 900 against average 1100 saves 200 and
price 1200 saves 0. -/
theorem savings_nonneg_display (avg : ℤ) (price : ℚ) :
    savings avg price = max 0 ((avg : ℚ) - price) ∧
    0 ≤ savings avg price ∧
    (showsSavingsBadge avg price = true ↔ 0 < savings avg price) ∧
    savings 1100 900 = 200 ∧
    savings 1100 1200 = 0 := by
  refine ⟨rfl, le_max_left 0 _, by simp [showsSavingsBadge], ?_, ?_⟩ <;> norm_num [savings]

/-- Claim C9: quotesWithId assigns identifiers quote-0, quote-1, … in
response-array order — determined solely by position, since the identifier
list depends only on the list length — preserves the underlying quotes in
order, and is empty when quotes is null. -/
theorem quotesWithId_ordinal_identifiers :
    quotesWithId none = [] ∧
    ∀ qs : List Quote,
      ((quotesWithId (some qs)).map fun q => q.id) =
        ((List.range qs.length).map fun i => "quote-" ++ toString i) ∧
      ((quotesWithId (some qs)).map fun q => q.toQuote) = qs := by
  refine ⟨rfl, fun qs => ⟨?_, ?_⟩⟩
  · have h1 : ((fun (q : QuoteWithId) => q.id) ∘ fun (p : ℕ × Quote) =>
        ({ p.2 with id := "quote-" ++ toString p.1 } : QuoteWithId)) =
        ((fun i => "quote-" ++ toString i) ∘ Prod.fst) := rfl
    simp only [quotesWithId, List.map_map, h1]
    rw [← List.map_map, List.enum_map_fst]
  · have h2 : ((fun (q : QuoteWithId) => q.toQuote) ∘ fun (p : ℕ × Quote) =>
        ({ p.2 with id := "quote-" ++ toString p.1 } : QuoteWithId)) = Prod.snd := rfl
    simp only [quotesWithId, List.map_map, h2]
    exact List.enum_map_snd qs

/-- Claim C10: in schedule mode a 2xx /schedule response whose body is null
is handled exactly like an empty array: schedule becomes the empty list, the
resulting state is identical to the empty-array case, the empty-state
message is shown, and no error is stored. -/
theorem schedule_null_treated_as_empty (s : AppState) (env : Env)
    (hm : s.mode = some Mode.schedule)
    (hr : env.scheduleResult = .resp true (.ok none)) :
    (handleSubmit s env).1.schedule = some [] ∧
    (handleSubmit s env).1 =
      (handleSubmit s { env with scheduleResult := .resp true (.ok (some [])) }).1 ∧
    showsScheduleEmptyMessage (handleSubmit s env).1 = true ∧
    (handleSubmit s env).1.error = none := by
  refine ⟨?_, ?_, ?_, ?_⟩ <;>
    simp [handleSubmit, hm, hr, showsScheduleEmptyMessage, showsScheduleSection]

/-- Witness for C10 at the concrete null-schedule environment. -/
theorem schedule_null_treated_as_empty_witness :
    (handleSubmit scheduleModeState nullScheduleEnv).1.schedule = some [] ∧
    (handleSubmit scheduleModeState nullScheduleEnv).1 =
      (handleSubmit scheduleModeState
        { nullScheduleEnv with scheduleResult := .resp true (.ok (some [])) }).1 ∧
    showsScheduleEmptyMessage (handleSubmit scheduleModeState nullScheduleEnv).1 = true ∧
    (handleSubmit scheduleModeState nullScheduleEnv).1.error = none :=
  schedule_null_treated_as_empty scheduleModeState nullScheduleEnv rfl rfl

end FairFix
